import Mathlib

/-!
Shallow embedding of the Bio-Agent chat completion pipeline
(backend/app/services/chat_db.py, backend/app/services/llm.py,
backend/app/api/chat.py, backend/app/services/conversation_service.py).

Conversations are stored as MongoDB documents; we model the collection as a
list of documents, `find_one` as first match, and `update_one` as an update of
the first matching document whose `modified_count` is 1 exactly when the
update actually changed the document (MongoDB reports `modified_count = 0`
for a no-op `$set`).  Timestamps (`datetime.now()`) are passed in explicitly
as natural numbers.
-/

namespace BioAgent

/-- Model of `app/models/chat.py` `Message` (fields relevant to the pipeline). -/
structure Message where
  id : String
  role : String
  content : String
deriving DecidableEq

/-- Model of `app/models/chat.py` `Conversation`: messages are embedded in the
conversation document, `message_count` is an integer counter (MongoDB `$inc`
can drive it negative, hence `Int`). -/
structure Conversation where
  id : String
  user_id : String
  title : String
  messages : List Message
  message_count : Int
  is_pinned : Bool
  is_favorite : Bool
  is_archived : Bool
  tags : List String
  created_at : Nat
  updated_at : Nat
deriving DecidableEq

/-- The `conversations` MongoDB collection. -/
abbrev Store := List Conversation

/-- The ownership filter (id equals `conversation_id` and owner equals
`user_id`) used by every ChatService query. -/
def convMatch (conversation_id user_id : String) (c : Conversation) : Bool :=
  c.id = conversation_id && c.user_id = user_id

/-- MongoDB `find_one`: first document matching the filter. -/
def findOne {α : Type} (p : α → Bool) : List α → Option α
  | [] => none
  | c :: rest => if p c then some c else findOne p rest

/-- MongoDB `update_one`: rewrite the first document matching the filter with
`f`; the returned number is `modified_count`, which is `1` exactly when a
matching document exists and the update changed it. -/
def updateOne {α : Type} [DecidableEq α] (p : α → Bool) (f : α → α) :
    List α → List α × Nat
  | [] => ([], 0)
  | c :: rest =>
    if p c then
      let c2 := f c
      (c2 :: rest, if c2 = c then 0 else 1)
    else
      let r := updateOne p f rest
      (c :: r.1, r.2)

/-- Model of `app/models/chat.py` `ConversationUpdate`: an update patch where unset
fields (`exclude_unset`) are `none`. -/
structure ConversationUpdate where
  title : Option String := none
  is_pinned : Option Bool := none
  is_favorite : Option Bool := none
  is_archived : Option Bool := none
  tags : Option (List String) := none
deriving DecidableEq

/-- Test that `conversation_update.model_dump(exclude_unset=True)` is empty. -/
def ConversationUpdate.isUnset (u : ConversationUpdate) : Bool :=
  u.title.isNone && u.is_pinned.isNone && u.is_favorite.isNone &&
  u.is_archived.isNone && u.tags.isNone

/-- The effect of the `$set` issued by `ChatService.update_conversation`:
every set field of the patch plus the refreshed `updated_at`. -/
def applySet (u : ConversationUpdate) (now : Nat) (c : Conversation) :
    Conversation :=
  { c with
    title := u.title.getD c.title
    is_pinned := u.is_pinned.getD c.is_pinned
    is_favorite := u.is_favorite.getD c.is_favorite
    is_archived := u.is_archived.getD c.is_archived
    tags := u.tags.getD c.tags
    updated_at := now }

namespace ChatService

/-- Model of `ChatService.create_conversation` (chat_db.py): inserts a fresh document
with no messages and `message_count = 0`.  The generated uuid and
`datetime.now()` are passed in explicitly. -/
def create_conversation (user_id : String) (new_id : String)
    (title : Option String) (now : Nat) (store : Store) :
    Conversation × Store :=
  let conversation : Conversation :=
    { id := new_id
      user_id := user_id
      title := title.getD "新对话"
      messages := []
      message_count := 0
      is_pinned := false
      is_favorite := false
      is_archived := false
      tags := []
      created_at := now
      updated_at := now }
  (conversation, store ++ [conversation])

/-- Model of `ChatService.get_conversation` (chat_db.py). -/
def get_conversation (conversation_id user_id : String) (store : Store) :
    Option Conversation :=
  findOne (convMatch conversation_id user_id) store

/-- Model of `ChatService.add_message` (chat_db.py): one `update_one` carrying
`$push messages`, `$inc message_count 1` and `$set updated_at`; returns
`modified_count > 0`. -/
def add_message (conversation_id user_id : String) (message : Message)
    (now : Nat) (store : Store) : Store × Bool :=
  let r := updateOne (convMatch conversation_id user_id)
    (fun c =>
      { c with
        messages := c.messages ++ [message]
        message_count := c.message_count + 1
        updated_at := now })
    store
  (r.1, r.2 > 0)

/-- Model of `ChatService.update_conversation` (chat_db.py): empty patch short-circuits
to a read; otherwise `$set` of the patch fields plus `updated_at := now`, and
the conversation is re-read only when `modified_count > 0`, else `None`. -/
def update_conversation (conversation_id user_id : String)
    (u : ConversationUpdate) (now : Nat) (store : Store) :
    Store × Option Conversation :=
  if u.isUnset then (store, get_conversation conversation_id user_id store)
  else
    let r := updateOne (convMatch conversation_id user_id) (applySet u now) store
    if r.2 > 0 then (r.1, get_conversation conversation_id user_id r.1)
    else (r.1, none)

/-- Model of `ChatService.delete_message` (chat_db.py): one `update_one` carrying
`$pull messages by id`, `$inc message_count (-1)` and `$set updated_at`;
returns `modified_count > 0`. -/
def delete_message (conversation_id user_id message_id : String)
    (now : Nat) (store : Store) : Store × Bool :=
  let r := updateOne (convMatch conversation_id user_id)
    (fun c =>
      { c with
        messages := c.messages.filter (fun m => m.id ≠ message_id)
        message_count := c.message_count - 1
        updated_at := now })
    store
  (r.1, r.2 > 0)

end ChatService

/-- Repeated invocation of `ChatService.delete_message` with the same
arguments (claim C10). -/
def iterDelete (conversation_id user_id message_id : String) (now : Nat) :
    Nat → Store → Store
  | 0, store => store
  | k + 1, store =>
    iterDelete conversation_id user_id message_id now k
      (ChatService.delete_message conversation_id user_id message_id now
        store).1

/-- One step of the storage history relevant to claim C3: creating a
conversation or appending a message through `ChatService`. -/
inductive StoreOp
  | create (user_id new_id : String) (title : Option String) (now : Nat)
  | append (conversation_id user_id : String) (message : Message) (now : Nat)

/-- Run one storage operation against the conversations collection. -/
def applyOp (store : Store) : StoreOp → Store
  | .create user_id new_id title now =>
    (ChatService.create_conversation user_id new_id title now store).2
  | .append conversation_id user_id message now =>
    (ChatService.add_message conversation_id user_id message now store).1

/-- Run a sequence of storage operations. -/
def applyOps (ops : List StoreOp) (store : Store) : Store :=
  ops.foldl applyOp store

/-! ### The split-collection store (`app/services/conversation_service.py`) -/

/-- Model of `app/models/conversation.py` `ConversationDocument` (fields
relevant to the pipeline): messages live in a separate collection. -/
structure ConversationDoc where
  id : String
  user_id : String
  title : String
  message_count : Int
  is_archived : Bool
  is_favorite : Bool
  created_at : Nat
  updated_at : Nat
deriving DecidableEq

/-- Model of `app/models/conversation.py` `MessageDocument`. -/
structure MessageDoc where
  id : String
  conversation_id : String
  role : String
  content : String
  timestamp : Nat
deriving DecidableEq

/-- The two collections used by `ConversationService`. -/
structure Store2 where
  conversations : List ConversationDoc
  messages : List MessageDoc
deriving DecidableEq

/-- The ownership filter used by every `ConversationService` query. -/
def convMatch2 (conversation_id user_id : String) (c : ConversationDoc) : Bool :=
  c.id = conversation_id && c.user_id = user_id

namespace ConversationService

/-- Model of `ConversationService.get_conversation`. -/
def get_conversation (conversation_id user_id : String) (s : Store2) :
    Option ConversationDoc :=
  findOne (convMatch2 conversation_id user_id) s.conversations

/-- Model of `ConversationService.add_message`: verify ownership and raise
`ValueError` (here: return `Except.error`) when the conversation is absent or
not owned; otherwise insert the message document and then bump
`message_count` and `updated_at` on the conversation. -/
def add_message (conversation_id user_id : String) (role content : String)
    (new_msg_id : String) (now : Nat) (s : Store2) :
    Except String (MessageDoc × Store2) :=
  match get_conversation conversation_id user_id s with
  | none => .error ("会话不存在或无权限: " ++ conversation_id)
  | some _ =>
    let message : MessageDoc :=
      { id := new_msg_id
        conversation_id := conversation_id
        role := role
        content := content
        timestamp := now }
    let messages2 := s.messages ++ [message]
    let conversations2 :=
      (updateOne (convMatch2 conversation_id user_id)
        (fun c => { c with message_count := c.message_count + 1,
                           updated_at := now })
        s.conversations).1
    .ok (message, { conversations := conversations2, messages := messages2 })

end ConversationService

/-! ### LLM service (`app/services/llm.py`) -/

/-- One entry of the `messages` list handed to the LLM service: a dict with
`role` and `content`. -/
structure ChatMsg where
  role : String
  content : String
deriving DecidableEq

/-- Model of Python substring membership `pat in s` on the character list. -/
def listSub (pat : List Char) : List Char → Bool
  | [] => pat.isEmpty
  | c :: rest => pat.isPrefixOf (c :: rest) || listSub pat rest

/-- Model of Python substring membership `pat in s` on strings. -/
def pyIn (pat s : String) : Bool :=
  listSub pat.data s.data

/-- Model of Python `s[:n]` slicing (first `n` code points). -/
def pyTake (s : String) (n : Nat) : String :=
  ⟨s.data.take n⟩

/-- Model of Python `str.lower()` (per code point; ASCII case folding, which
is all the routing test relies on). -/
def pyLower (s : String) : String :=
  ⟨s.data.map Char.toLower⟩

/-- Model of Python `s.startswith(pat)` (code-point prefix test). -/
def pyStartsWith (s pat : String) : Bool :=
  pat.data.isPrefixOf s.data

/-- Resolved provider configuration, as returned by
`LLMService._resolve_provider`; a missing/falsy `api_key` is modelled as `""`. -/
structure ProviderCfg where
  api_key : String := ""
  base_url : String := ""
  provider_name : String := ""
  model : String := ""
deriving DecidableEq

/-- Environment-variable fallback keys (`settings.OPENAI_API_KEY`,
`settings.ANTHROPIC_API_KEY`). -/
structure Env where
  OPENAI_API_KEY : String
  ANTHROPIC_API_KEY : String
deriving DecidableEq

/-- Hardcoded `LLMService.openai_base_url`. -/
def openai_base_url : String := "https://api.openai.com/v1"

/-- Hardcoded `LLMService.anthropic_base_url`. -/
def anthropic_base_url : String := "https://api.anthropic.com/v1"

/-- Model of `LLMService._resolve_provider`: a stored provider for the model
(if it has a truthy key), else the stored default provider with the model
substituted (if it has a truthy key), else env-var fallback chosen by the
`claude-` model-name prefix.  `db_raises = true` models an exception during
the DB lookup (the whole `try` block falls through to the env fallback). -/
def _resolve_provider (env : Env) (db_provider : Option ProviderCfg)
    (default_cfg : Option ProviderCfg) (db_raises : Bool) (model : String) :
    ProviderCfg :=
  let fallback : ProviderCfg :=
    if pyStartsWith model "claude-" then
      { api_key := env.ANTHROPIC_API_KEY
        base_url := anthropic_base_url
        provider_name := "Anthropic (env)"
        model := model }
    else
      { api_key := env.OPENAI_API_KEY
        base_url := openai_base_url
        provider_name := "OpenAI (env)"
        model := model }
  if db_raises then fallback
  else
    match db_provider with
    | some p =>
      if p.api_key ≠ "" then p
      else
        match default_cfg with
        | some d => if d.api_key ≠ "" then { d with model := model } else fallback
        | none => fallback
    | none =>
      match default_cfg with
      | some d => if d.api_key ≠ "" then { d with model := model } else fallback
      | none => fallback

/-- Model of the routing test inside `LLMService.stream_chat`:
`"anthropic" in provider_name.lower() or "anthropic" in base_url.lower()
or model.startswith("claude-")`. -/
def is_anthropic (provider_name base_url model : String) : Bool :=
  pyIn "anthropic" (pyLower provider_name) || pyIn "anthropic" (pyLower base_url)
    || pyStartsWith model "claude-"

/-- Stated from the spec (§4.2 routing rule, claim C4): select Anthropic if
the provider name, base URL, or model string matches "anthropic" or
"claude-" as a case-insensitive substring. -/
def routesAnthropicSpec (provider_name base_url model : String) : Bool :=
  let hit (s : String) : Bool :=
    pyIn "anthropic" (pyLower s) || pyIn "claude-" (pyLower s)
  hit provider_name || hit base_url || hit model

/-- The canned f-string template of `LLMService._mock_stream`. -/
def mock_response (provider last_msg : String) : String :=
  "【" ++ provider ++ "】我收到了你的消息：\x27" ++ last_msg ++
  "\x27。由于未配置 API KEY，这是模拟响应。\n\n你可以配置环境来连接真实模型。"

/-- Model of `LLMService._mock_stream`: the canned template built from the
last message's content, yielded one character per fragment.  Python indexes
`messages[-1]`, which requires a non-empty list; theorems about this
function restrict to non-empty input. -/
def _mock_stream (messages : List ChatMsg)
    (provider : String := "Mock LLM") : List String :=
  let last_msg := (messages.getLastD { role := "", content := "" }).content
  let response := mock_response provider last_msg
  response.data.map Char.toString

/-- Parsed shape of one line of the provider's SSE body as inspected by
`_stream_openai`: the `[DONE]` sentinel, a JSON payload whose delta carries
`content`, one whose delta lacks it, or a payload whose `json.loads`/key
access raises (silently swallowed by the bare `except`). -/
inductive DeltaPayload
  | done
  | contentDelta (s : String)
  | noContent
  | malformed
deriving DecidableEq

/-- One line of the provider's SSE response: either a `data: ` line carrying
a payload, or any other line (skipped by the `startswith` check). -/
inductive SseLine
  | dataLine (payload : DeltaPayload)
  | otherLine (raw : String)
deriving DecidableEq

/-- Model of the line loop of `_stream_openai`: emit `delta.content` of each
`data:` line, stop at `[DONE]`, skip everything else. -/
def processLines : List SseLine → List String
  | [] => []
  | .otherLine _ :: rest => processLines rest
  | .dataLine .done :: _ => []
  | .dataLine (.contentDelta s) :: rest => s :: processLines rest
  | .dataLine .noContent :: rest => processLines rest
  | .dataLine .malformed :: rest => processLines rest

/-- Environment model of the upstream HTTP call made by `_stream_openai`:
either the request raises before a response exists, or a response arrives
with a status, an error body, the SSE lines delivered, and optionally an
exception raised while iterating the lines (after `lines` were delivered). -/
inductive HttpStreamOutcome
  | connectError (err : String)
  | response (status : Nat) (body : String) (lines : List SseLine)
      (interrupt : Option String)
deriving DecidableEq

/-- Test whether the upstream call failed: transport exception, non-200
status, or an exception while streaming. -/
def HttpStreamOutcome.isFailure : HttpStreamOutcome → Bool
  | .connectError _ => true
  | .response status _ _ interrupt => status ≠ 200 || interrupt.isSome

/-- Test of the Mock-Mode condition of `_stream_openai`
(`if not effective_key or effective_key == "mock"` after
`effective_key = api_key or self.openai_api_key`). -/
def no_usable_key (env : Env) (api_key : String) : Bool :=
  let effective_key := if api_key = "" then env.OPENAI_API_KEY else api_key
  effective_key = "" || effective_key = "mock"

/-- Model of `LLMService._stream_openai`: mock mode when the effective key is
falsy or `"mock"`; a single `Error:` fragment on non-200; delta contents
followed by a single terminal `Error:` fragment if the transport raises.
`base_url` only determines the request URL and is otherwise unused. -/
def _stream_openai (env : Env) (messages : List ChatMsg)
    (api_key base_url : String) (outcome : HttpStreamOutcome) : List String :=
  let effective_key := if api_key = "" then env.OPENAI_API_KEY else api_key
  let _effective_url := if base_url = "" then openai_base_url else base_url
  if effective_key = "" || effective_key = "mock" then
    _mock_stream messages
  else
    match outcome with
    | .connectError err => ["Error: Request failed - " ++ err]
    | .response status body lines interrupt =>
      if status ≠ 200 then ["Error: " ++ toString status ++ " - " ++ body]
      else
        processLines lines ++
          (match interrupt with
           | some err => ["Error: Request failed - " ++ err]
           | none => [])

/-- Environment model of the Anthropic SDK call in `_stream_anthropic`:
client creation failure, or a stream of text deltas optionally interrupted
by an exception.  (The import-error and uninitialized-client branches also
yield a single `Error:` fragment and are subsumed by `clientCreateError`.) -/
inductive AnthropicOutcome
  | clientCreateError (err : String)
  | streamed (texts : List String) (interrupt : Option String)
deriving DecidableEq

/-- Model of `LLMService._stream_anthropic`: mock mode when the effective key
is falsy or `"mock"`, otherwise the SDK text deltas with errors converted
into a single terminal `Error:` fragment. -/
def _stream_anthropic (env : Env) (messages : List ChatMsg)
    (api_key : String) (outcome : AnthropicOutcome) : List String :=
  let effective_key := if api_key = "" then env.ANTHROPIC_API_KEY else api_key
  if effective_key = "" || effective_key = "mock" then
    _mock_stream messages "Anthropic Claude"
  else
    match outcome with
    | .clientCreateError err =>
      ["Error: Failed to create Anthropic client: " ++ err]
    | .streamed texts interrupt =>
      texts ++
        (match interrupt with
         | some err => ["Error: Anthropic request failed - " ++ err]
         | none => [])

/-- Model of `LLMService.stream_chat`: resolve the provider, route by
`is_anthropic` (note: the `startswith` test uses the requested `model`
argument), and delegate to the matching backend. -/
def stream_chat (env : Env) (db_provider default_cfg : Option ProviderCfg)
    (db_raises : Bool) (messages : List ChatMsg) (model : String)
    (httpOutcome : HttpStreamOutcome) (anthropicOutcome : AnthropicOutcome) :
    List String :=
  let cfg := _resolve_provider env db_provider default_cfg db_raises model
  if is_anthropic cfg.provider_name cfg.base_url model then
    _stream_anthropic env messages cfg.api_key anthropicOutcome
  else
    _stream_openai env messages cfg.api_key cfg.base_url httpOutcome

/-! ### Title generation (`app/api/chat.py`) -/

/-- Model of the left-end part of Python `str.strip(chars)`: drop leading
characters belonging to `chars`. -/
def stripLeft (chars : List Char) : List Char → List Char
  | [] => []
  | c :: rest => if chars.contains c then stripLeft chars rest else c :: rest

/-- Model of Python `str.strip(chars)`: drop characters of `chars` from both
ends. -/
def pyStrip (chars : List Char) (s : String) : String :=
  ⟨(stripLeft chars ((stripLeft chars s.data).reverse)).reverse⟩

/-- ASCII whitespace stripped by Python `str.strip()` with no argument. -/
def pyWhitespace : List Char :=
  [Char.ofNat 32, Char.ofNat 9, Char.ofNat 10, Char.ofNat 13,
   Char.ofNat 11, Char.ofNat 12]

/-- The double-quote character, for `str.strip` of quotes. -/
def dquote : Char := Char.ofNat 34

/-- The single-quote character, for `str.strip` of quotes. -/
def squote : Char := Char.ofNat 39

/-- CJK title book-end brackets stripped by `_generate_title`
(`str.strip` of U+300A and U+300B). -/
def cjkBrackets : List Char := [Char.ofNat 12298, Char.ofNat 12299]

/-- The fallback title of `_generate_title`: the truncated user message. -/
def title_fallback (user_message : String) : String :=
  if user_message.length > 20 then pyTake user_message 20 ++ "..."
  else user_message

/-- The strip chain of `_generate_title`:
`title.strip().strip(quotes).strip(cjk brackets).strip()`. -/
def title_cleaned (raw : String) : String :=
  pyStrip pyWhitespace (pyStrip cjkBrackets (pyStrip [squote]
    (pyStrip [dquote] (pyStrip pyWhitespace raw))))

/-- Model of `_generate_title` (chat.py): clean the accumulated LLM text by
the strip chain and truncate to 30 code points; if the cleaned text is empty
or the LLM call raised (`llm_raw = none`), fall back to the truncated user
message. -/
def _generate_title (user_message ai_response : String)
    (llm_raw : Option String) : String :=
  let _ := ai_response
  match llm_raw with
  | none => title_fallback user_message
  | some raw =>
    if title_cleaned raw ≠ "" then pyTake (title_cleaned raw) 30
    else title_fallback user_message

/-- The strip chain of the `generate-title` endpoint:
`title.strip().strip(quotes).strip()`. -/
def endpoint_cleaned (raw : String) : String :=
  pyStrip pyWhitespace (pyStrip [squote]
    (pyStrip [dquote] (pyStrip pyWhitespace raw)))

/-- Model of the cleanup in the `generate-title` endpoint
(`generate_conversation_title`, chat.py): strip whitespace and quotes, then
truncate to 30 code points *and append `"..."`* when the cleaned title
exceeds 30 characters. -/
def generate_title_endpoint_clean (raw : String) : String :=
  if (endpoint_cleaned raw).length > 30 then
    pyTake (endpoint_cleaned raw) 30 ++ "..."
  else endpoint_cleaned raw

/-- The prompt built by the `generate-title` endpoint from the first-turn
exchange. -/
def generate_title_endpoint_prompt (user_message assistant_message : String) :
    String :=
  "请根据以下对话内容，生成一个简洁的标题（不超过20个字）。只返回标题文本，不要有任何其他内容。\n\n用户: "
    ++ pyTake user_message 200 ++ "\n\n助手: " ++ pyTake assistant_message 300
    ++ "\n\n标题:"

/-! ### Chat orchestrator (`app/api/chat.py` `chat_completions`) -/

/-- The accumulation `full_response += chunk` over a fragment list. -/
def sjoin : List String → String
  | [] => ""
  | s :: rest => s ++ sjoin rest

/-- Model of the LLM portion of the `generate-title` endpoint
(`generate_conversation_title`, chat.py): build the prompt from the
first-turn exchange, accumulate the `stream_chat` output for
`model = "gpt-3.5-turbo"`, and clean/truncate the accumulated text. -/
def generate_conversation_title_run (env : Env)
    (db_provider default_cfg : Option ProviderCfg) (db_raises : Bool)
    (user_message assistant_message : String)
    (httpOutcome : HttpStreamOutcome) (anthropicOutcome : AnthropicOutcome) :
    String :=
  let prompt := generate_title_endpoint_prompt user_message assistant_message
  let raw := sjoin (stream_chat env db_provider default_cfg db_raises
    [{ role := "user", content := prompt }] "gpt-3.5-turbo"
    httpOutcome anthropicOutcome)
  generate_title_endpoint_clean raw

/-- Wire events emitted by `event_generator`.  `token` renders as
`data: ` plus a JSON object with `content` and `conversationId`;
`titleGenerated` as the dedicated title-update JSON object; `errorEvent` as
a JSON object with only an `error` key; `done` renders as the literal
terminal sentinel `data: [DONE]` followed by a blank line. -/
inductive SseEvent
  | token (content conversationId : String)
  | titleGenerated (title conversationId : String)
  | errorEvent (message : String)
  | done
deriving DecidableEq

/-- Per-request nondeterminism of `event_generator`: generated message id and
timestamps, whether storing the assistant message raises (with the exception
text), the raw LLM text seen by `_generate_title` (`none` models a raised
title call), and whether the title `update_conversation` raises. -/
structure OrchestratorEnv where
  ai_msg_id : String
  now : Nat
  title_now : Nat
  persist_error : Option String
  title_llm_raw : Option String
  title_update_raises : Bool
deriving DecidableEq

/-- Model of the `event_generator` closure in `chat_completions`: forward
each fragment as a token event while accumulating `full_response`; store the
accumulated text as the assistant message; on a new conversation with
non-empty response, generate and store a title and emit a title event (title
failures are swallowed); finish with the `[DONE]` sentinel.  An exception
while persisting reaches the outer `except`, which emits a single error
event instead (and no `[DONE]`).  Returns the emitted events and the store
after the turn. -/
def event_generator (conversation_id user_id req_message : String)
    (is_new_conversation : Bool) (frags : List String)
    (oe : OrchestratorEnv) (store : Store) : List SseEvent × Store :=
  let full_response := sjoin frags
  let tokens := frags.map (fun chunk => SseEvent.token chunk conversation_id)
  match oe.persist_error with
  | some e => (tokens ++ [SseEvent.errorEvent e], store)
  | none =>
    let r := ChatService.add_message conversation_id user_id
      { id := oe.ai_msg_id, role := "assistant", content := full_response }
      oe.now store
    let store2 := r.1
    if is_new_conversation && full_response ≠ "" then
      let new_title := _generate_title req_message full_response oe.title_llm_raw
      if oe.title_update_raises then
        (tokens ++ [SseEvent.done], store2)
      else
        let r2 := ChatService.update_conversation conversation_id user_id
          { title := some new_title } oe.title_now store2
        (tokens ++ [SseEvent.titleGenerated new_title conversation_id,
          SseEvent.done], r2.1)
    else (tokens ++ [SseEvent.done], store2)

/-- Model of the per-chunk handling in the non-streaming drain of
`chat_completions`: the `[DONE]` sentinel is skipped, every other event is a
JSON object that contributes its `content` field when it has one (only token
events do). -/
def drain_chunk : SseEvent → String
  | .token content _ => content
  | .titleGenerated _ _ => ""
  | .errorEvent _ => ""
  | .done => ""

/-- Model of the non-streaming branch of `chat_completions`: drain the very
same `event_generator` and return the conversation id plus accumulated
message text. -/
def chat_completions_nonstream (conversation_id user_id req_message : String)
    (is_new_conversation : Bool) (frags : List String)
    (oe : OrchestratorEnv) (store : Store) : String × String :=
  let r := event_generator conversation_id user_id req_message
    is_new_conversation frags oe store
  (conversation_id, sjoin (r.1.map drain_chunk))

/-- Stated from the spec (claim C8): the `content` fields of the token events
of an event sequence, in order. -/
def tokenContents (events : List SseEvent) : List String :=
  events.filterMap (fun e =>
    match e with
    | .token content _ => some content
    | _ => none)

/-! ### Sample data for concrete witnesses -/

/-- A sample stored conversation owned by `u1`. -/
def sampleConv : Conversation :=
  { id := "conv-1", user_id := "u1", title := "新对话", messages := [],
    message_count := 0, is_pinned := false, is_favorite := false,
    is_archived := false, tags := [], created_at := 5, updated_at := 5 }

/-- A sample user message. -/
def sampleMsg : Message := { id := "msg-9", role := "user", content := "你好" }

/-- An environment with no API keys configured (Mock Mode). -/
def sampleEnvNoKeys : Env := { OPENAI_API_KEY := "", ANTHROPIC_API_KEY := "" }

/-- An environment with a usable OpenAI-compatible key. -/
def sampleEnvLive : Env :=
  { OPENAI_API_KEY := "sk-live", ANTHROPIC_API_KEY := "" }

/-- Orchestrator nondeterminism for a turn whose persistence succeeds. -/
def sampleOeOk : OrchestratorEnv :=
  { ai_msg_id := "msg-a1", now := 7, title_now := 8, persist_error := none,
    title_llm_raw := none, title_update_raises := false }

/-- Orchestrator nondeterminism for a turn whose persistence raises. -/
def sampleOeFail : OrchestratorEnv :=
  { sampleOeOk with persist_error := some "db connection lost" }

/-! ### Helper lemmas -/

theorem findOne_pred {α : Type} (p : α → Bool) (l : List α) (c : α)
    (h : findOne p l = some c) : p c = true := by
  induction l with
  | nil => simp [findOne] at h
  | cons a rest ih =>
    cases hp : p a with
    | true =>
      simp only [findOne, hp, if_true] at h
      cases h; exact hp
    | false =>
      simp only [findOne, hp] at h
      exact ih h

theorem str_append_assoc (a b c : String) : a ++ b ++ c = a ++ (b ++ c) :=
  String.ext (by simp)

theorem sjoin_append (a b : List String) :
    sjoin (a ++ b) = sjoin a ++ sjoin b := by
  induction a with
  | nil => simp [sjoin]
  | cons s rest ih => simp [sjoin, ih, str_append_assoc]

theorem updateOne_of_findOne_none {α : Type} [DecidableEq α]
    (p : α → Bool) (f : α → α) (l : List α) (h : findOne p l = none) :
    updateOne p f l = (l, 0) := by
  induction l with
  | nil => rfl
  | cons a rest ih =>
    cases hp : p a with
    | true => simp [findOne, hp] at h
    | false =>
      simp only [findOne, hp] at h
      simp [updateOne, hp, ih h]

theorem updateOne_of_findOne_some {α : Type} [DecidableEq α]
    (p : α → Bool) (f : α → α) (l : List α) (c : α)
    (h : findOne p l = some c) (hfc : p (f c) = true) :
    (updateOne p f l).2 = (if f c = c then 0 else 1) ∧
      findOne p (updateOne p f l).1 = some (f c) := by
  induction l with
  | nil => simp [findOne] at h
  | cons a rest ih =>
    cases hp : p a with
    | true =>
      simp only [findOne, hp, if_true] at h
      cases h
      constructor
      · simp [updateOne, hp]
      · simp [updateOne, hp, findOne, hfc]
    | false =>
      simp only [findOne, hp] at h
      have ih2 := ih h
      constructor
      · simp [updateOne, hp, ih2.1]
      · simp [updateOne, hp, findOne, ih2.2]

theorem updateOne_forall {α : Type} [DecidableEq α] (P : α → Prop)
    (p : α → Bool) (f : α → α) (l : List α)
    (hf : ∀ x, P x → P (f x)) (hl : ∀ x ∈ l, P x) :
    ∀ x ∈ (updateOne p f l).1, P x := by
  induction l with
  | nil => simp [updateOne]
  | cons a rest ih =>
    cases hp : p a with
    | true =>
      intro x hx
      simp only [updateOne, hp] at hx
      rcases List.mem_cons.mp hx with h1 | h1
      · exact h1 ▸ hf a (hl a (List.mem_cons_self a rest))
      · exact hl x (List.mem_cons_of_mem a h1)
    | false =>
      intro x hx
      simp only [updateOne, hp] at hx
      rcases List.mem_cons.mp hx with h1 | h1
      · exact h1 ▸ hl a (List.mem_cons_self a rest)
      · exact ih (fun y hy => hl y (List.mem_cons_of_mem a hy)) x h1

theorem applyOp_count (store : Store) (op : StoreOp)
    (h : ∀ c ∈ store, c.message_count = (c.messages.length : Int)) :
    ∀ c ∈ applyOp store op, c.message_count = (c.messages.length : Int) := by
  cases op with
  | create user_id new_id title now =>
    intro c hc
    simp only [applyOp, ChatService.create_conversation] at hc
    rcases List.mem_append.mp hc with h1 | h1
    · exact h c h1
    · rcases List.mem_singleton.mp h1 with rfl
      simp
  | append conversation_id user_id message now =>
    intro c hc
    simp only [applyOp, ChatService.add_message] at hc
    refine updateOne_forall (fun x => x.message_count = (x.messages.length : Int))
      _ _ store ?_ h c hc
    intro x hx
    simp only [List.length_append, List.length_cons, List.length_nil]
    push_cast
    omega

/-! ### Theorems for the claims -/

/-- Claim C3: starting from an empty store, after any sequence of
conversation creations and (successful or failed) message appends through
`ChatService`, every stored conversation's `message_count` equals the number
of messages stored in it.  (A conversation starts with zero messages at
creation, and each successful append adds one message and increments the
counter by one in the same atomic update.) -/
theorem C3_message_count_invariant (ops : List StoreOp) :
    ∀ c ∈ applyOps ops [], c.message_count = (c.messages.length : Int) := by
  suffices h : ∀ store, (∀ c ∈ store, c.message_count = (c.messages.length : Int)) →
      ∀ c ∈ applyOps ops store, c.message_count = (c.messages.length : Int) by
    exact h [] (by simp)
  induction ops with
  | nil => intro store h; simpa [applyOps] using h
  | cons op rest ih =>
    intro store h
    simp only [applyOps, List.foldl_cons] at *
    exact ih (applyOp store op) (applyOp_count store op h)

/-- Witness for C3: a concrete create-then-append history, checked on the
conversation it produces. -/
theorem C3_witness :
    ({ id := "conv-1", user_id := "u1", title := "新对话",
       messages := [{ id := "msg-1", role := "user", content := "Hello" }],
       message_count := 1, is_pinned := false, is_favorite := false,
       is_archived := false, tags := [], created_at := 0, updated_at := 1 } :
      Conversation).message_count =
      (([{ id := "msg-1", role := "user", content := "Hello" }] :
        List Message).length : Int) :=
  C3_message_count_invariant
    [StoreOp.create "u1" "conv-1" none 0,
     StoreOp.append "conv-1" "u1"
       { id := "msg-1", role := "user", content := "Hello" } 1]
    _ (by decide)

/-- Claim C2: for every `(conversation_id, user_id)` with no owned
conversation, appending a message fails — `ChatService.add_message` returns
`false` and leaves the store untouched, and
`ConversationService.add_message` raises (`Except.error`) — and when the
conversation exists, the message is stored while `message_count` is
incremented by exactly one and `updated_at` is refreshed in the same
single-document update. -/
theorem C2_append_message_ownership (conversation_id user_id : String)
    (m : Message) (now : Nat) (store : Store)
    (role content new_msg_id : String) (now2 : Nat) (s2 : Store2) :
    (ChatService.get_conversation conversation_id user_id store = none →
      ChatService.add_message conversation_id user_id m now store =
        (store, false)) ∧
    (∀ c, ChatService.get_conversation conversation_id user_id store = some c →
      (ChatService.add_message conversation_id user_id m now store).2 = true ∧
      ChatService.get_conversation conversation_id user_id
          (ChatService.add_message conversation_id user_id m now store).1 =
        some { c with messages := c.messages ++ [m],
                      message_count := c.message_count + 1,
                      updated_at := now }) ∧
    (ConversationService.get_conversation conversation_id user_id s2 = none →
      ∃ e, ConversationService.add_message conversation_id user_id role content
          new_msg_id now2 s2 = .error e) ∧
    (∀ c2, ConversationService.get_conversation conversation_id user_id s2 =
        some c2 →
      ∃ msg s3, ConversationService.add_message conversation_id user_id role
          content new_msg_id now2 s2 = .ok (msg, s3) ∧
        msg.conversation_id = conversation_id ∧
        s3.messages = s2.messages ++ [msg] ∧
        ConversationService.get_conversation conversation_id user_id s3 =
          some { c2 with message_count := c2.message_count + 1,
                         updated_at := now2 }) := by
  refine ⟨?_, ?_, ?_, ?_⟩
  · intro h
    simp only [ChatService.add_message,
      updateOne_of_findOne_none _ _ _ h]
    rfl
  · intro c hc
    have hpc : convMatch conversation_id user_id c = true :=
      findOne_pred _ _ _ hc
    have hfc : convMatch conversation_id user_id
        { c with messages := c.messages ++ [m],
                 message_count := c.message_count + 1,
                 updated_at := now } = true := by
      simpa [convMatch] using hpc
    have h2 := updateOne_of_findOne_some _
      (fun c => { c with messages := c.messages ++ [m],
                         message_count := c.message_count + 1,
                         updated_at := now }) store c hc hfc
    have hne : ({ c with messages := c.messages ++ [m],
                         message_count := c.message_count + 1,
                         updated_at := now } : Conversation) ≠ c := by
      intro he
      have := congrArg (fun x => x.messages.length) he
      simp at this
    constructor
    · simp only [ChatService.add_message]
      rw [h2.1, if_neg hne]
      rfl
    · simpa only [ChatService.add_message, ChatService.get_conversation]
        using h2.2
  · intro h
    exact ⟨"会话不存在或无权限: " ++ conversation_id,
      by simp only [ConversationService.add_message, h]⟩
  · intro c2 hc
    have hpc : convMatch2 conversation_id user_id c2 = true :=
      findOne_pred _ _ _ hc
    have hfc : convMatch2 conversation_id user_id
        { c2 with message_count := c2.message_count + 1,
                  updated_at := now2 } = true := by
      simpa [convMatch2] using hpc
    have h2 := updateOne_of_findOne_some (convMatch2 conversation_id user_id)
      (fun c => { c with message_count := c.message_count + 1,
                         updated_at := now2 }) s2.conversations c2
      (by simpa [ConversationService.get_conversation] using hc) hfc
    have hmain : ConversationService.add_message conversation_id user_id role
        content new_msg_id now2 s2 =
        .ok ({ id := new_msg_id, conversation_id := conversation_id,
               role := role, content := content, timestamp := now2 },
             { conversations := (updateOne (convMatch2 conversation_id user_id)
                 (fun c => { c with message_count := c.message_count + 1,
                                    updated_at := now2 }) s2.conversations).1,
               messages := s2.messages ++
                 [{ id := new_msg_id, conversation_id := conversation_id,
                    role := role, content := content, timestamp := now2 }] }) := by
      simp only [ConversationService.add_message, hc]
    exact ⟨_, _, hmain, rfl, rfl,
      by simpa only [ConversationService.get_conversation] using h2.2⟩

/-- Witness for C2: appending to an existing owned conversation succeeds and
bumps the counter; the concrete absent case is also checked. -/
theorem C2_witness :
    ((ChatService.add_message "conv-1" "u1" sampleMsg 7 [sampleConv]).2 = true ∧
      ChatService.get_conversation "conv-1" "u1"
          (ChatService.add_message "conv-1" "u1" sampleMsg 7 [sampleConv]).1 =
        some { sampleConv with messages := sampleConv.messages ++ [sampleMsg],
                               message_count := sampleConv.message_count + 1,
                               updated_at := 7 }) ∧
    ChatService.add_message "conv-404" "u1" sampleMsg 7 [sampleConv] =
      ([sampleConv], false) :=
  ⟨(C2_append_message_ownership "conv-1" "u1" sampleMsg 7 [sampleConv]
      "user" "hi" "msg-2" 9 ⟨[], []⟩).2.1 sampleConv (by decide),
   (C2_append_message_ownership "conv-404" "u1" sampleMsg 7 [sampleConv]
      "user" "hi" "msg-2" 9 ⟨[], []⟩).1 (by decide)⟩

/-- Claim C10: for an owned conversation containing no embedded message with
the given id, `ChatService.delete_message` still reports success (`true`),
decrements `message_count` by one and refreshes `updated_at` (the `$inc` and
`$set` modify the document even though `$pull` matches nothing), and `k + 1`
repeated calls leave the messages untouched while driving the counter down
by `k + 1` — in particular below zero and below the true embedded count. -/
theorem C10_delete_message_absent
    (conversation_id user_id message_id : String) (now : Nat)
    (store : Store) (c : Conversation)
    (hc : ChatService.get_conversation conversation_id user_id store = some c)
    (habsent : ∀ m ∈ c.messages, m.id ≠ message_id) :
    (ChatService.delete_message conversation_id user_id message_id now
      store).2 = true ∧
    ∀ k : Nat,
      ChatService.get_conversation conversation_id user_id
          (iterDelete conversation_id user_id message_id now (k + 1) store) =
        some { c with message_count := c.message_count - ((k : Int) + 1),
                      updated_at := now } := by
  have step : ∀ (s : Store) (d : Conversation),
      ChatService.get_conversation conversation_id user_id s = some d →
      d.messages = c.messages →
      (ChatService.delete_message conversation_id user_id message_id now
        s).2 = true ∧
      ChatService.get_conversation conversation_id user_id
          (ChatService.delete_message conversation_id user_id message_id now
            s).1 =
        some { d with messages := d.messages,
                      message_count := d.message_count - 1,
                      updated_at := now } := by
    intro s d hd hdm
    have hfilter : d.messages.filter (fun m => m.id ≠ message_id) =
        d.messages := by
      rw [List.filter_eq_self]
      intro a ha
      have : a.id ≠ message_id := habsent a (hdm ▸ ha)
      simpa using this
    have hpc : convMatch conversation_id user_id d = true :=
      findOne_pred _ _ _ hd
    have hfc : convMatch conversation_id user_id
        { d with messages := d.messages.filter (fun m => m.id ≠ message_id),
                 message_count := d.message_count - 1,
                 updated_at := now } = true := by
      simpa [convMatch] using hpc
    have h2 := updateOne_of_findOne_some (convMatch conversation_id user_id)
      (fun x => { x with
        messages := x.messages.filter (fun m => m.id ≠ message_id),
        message_count := x.message_count - 1,
        updated_at := now }) s d hd hfc
    simp only [] at h2
    have hne : ({ d with
        messages := d.messages.filter (fun m => m.id ≠ message_id),
        message_count := d.message_count - 1,
        updated_at := now } : Conversation) ≠ d := by
      intro he
      have := congrArg (fun x => x.message_count) he
      simp only at this
      omega
    constructor
    · simp only [ChatService.delete_message]
      rw [h2.1, if_neg hne]
      rfl
    · simp only [ChatService.delete_message, ChatService.get_conversation]
      rw [h2.2]
      simp only [hfilter]
  have main : ∀ (k : Nat) (s : Store) (d : Conversation),
      ChatService.get_conversation conversation_id user_id s = some d →
      d.messages = c.messages →
      ChatService.get_conversation conversation_id user_id
          (iterDelete conversation_id user_id message_id now (k + 1) s) =
        some { d with message_count := d.message_count - ((k : Int) + 1),
                      updated_at := now } := by
    intro k
    induction k with
    | zero =>
      intro s d hd hdm
      have h1 := (step s d hd hdm).2
      simp only [iterDelete]
      simpa using h1
    | succ k ih =>
      intro s d hd hdm
      have h1 := (step s d hd hdm).2
      have h1x : ChatService.get_conversation conversation_id user_id
          (ChatService.delete_message conversation_id user_id message_id now
            s).1 =
          some { d with message_count := d.message_count - 1,
                        updated_at := now } := by simpa using h1
      have h2 := ih (ChatService.delete_message conversation_id user_id
          message_id now s).1
        { d with message_count := d.message_count - 1, updated_at := now }
        h1x hdm
      have harith : d.message_count - 1 - ((k : Int) + 1) =
          d.message_count - (((k : Nat) + 1 : Nat) + 1) := by
        push_cast
        ring
      show ChatService.get_conversation conversation_id user_id
          (iterDelete conversation_id user_id message_id now (k + 1)
            (ChatService.delete_message conversation_id user_id message_id
              now s).1) = _
      rw [h2, harith]
  exact ⟨(step store c hc rfl).1, fun k => main k store c hc rfl⟩

/-- Witness for C10: deleting a non-existent message id from a conversation
with zero messages succeeds and drives `message_count` to `-1 < 0`. -/
theorem C10_witness :
    ((ChatService.delete_message "conv-1" "u1" "msg-404" 7 [sampleConv]).2 =
        true ∧
      ChatService.get_conversation "conv-1" "u1"
          (iterDelete "conv-1" "u1" "msg-404" 7 (0 + 1) [sampleConv]) =
        some { sampleConv with
               message_count := sampleConv.message_count - (((0 : Nat) : Int) + 1),
               updated_at := 7 }) ∧
    sampleConv.message_count - (((0 : Nat) : Int) + 1) < 0 :=
  ⟨⟨(C10_delete_message_absent "conv-1" "u1" "msg-404" 7 [sampleConv]
        sampleConv (by decide) (by decide)).1,
    (C10_delete_message_absent "conv-1" "u1" "msg-404" 7 [sampleConv]
        sampleConv (by decide) (by decide)).2 0⟩,
   by decide⟩

/-- Counterexample to claim C9 as stated: the conversation exists, is owned,
and the patch sets `title` to its current value (`"新对话"`), yet
`update_conversation` does not return the not-found result — it succeeds and
returns the conversation with a refreshed `updated_at`, because the service
always injects `updated_at := now` into the `$set`, so the document changes
and `modified_count = 1`. -/
theorem C9_counterexample :
    (ChatService.update_conversation "conv-1" "u1" { title := some "新对话" }
        6 [sampleConv]).2 =
      some { sampleConv with updated_at := 6 } := by decide

/-- Claim C9 (amended): with a non-empty patch, `update_conversation`
returns the not-found result (`None`) iff either no owned conversation
exists or the applied `$set` — the patch fields *plus the refreshed
`updated_at`* — leaves the stored document unchanged (success is judged by
`modified_count > 0`).  In particular, setting the title to its current
value still succeeds whenever `now` differs from the stored `updated_at`. -/
theorem C9_update_modified_count (conversation_id user_id : String)
    (u : ConversationUpdate) (now : Nat) (store : Store)
    (hne : u.isUnset = false) :
    ((ChatService.update_conversation conversation_id user_id u now store).2
        = none ↔
      ∀ c, ChatService.get_conversation conversation_id user_id store = some c
        → applySet u now c = c) := by
  simp only [ChatService.update_conversation, hne, Bool.false_eq_true,
    if_false]
  cases hg : ChatService.get_conversation conversation_id user_id store with
  | none =>
    rw [updateOne_of_findOne_none (convMatch conversation_id user_id)
      (applySet u now) store hg]
    simp [hg]
  | some c =>
    have hpc : convMatch conversation_id user_id c = true :=
      findOne_pred _ _ _ hg
    have hfc : convMatch conversation_id user_id (applySet u now c) = true := by
      simpa [convMatch, applySet] using hpc
    have h2 := updateOne_of_findOne_some (convMatch conversation_id user_id)
      (applySet u now) store c hg hfc
    by_cases heq : applySet u now c = c
    · rw [h2.1, if_pos heq]
      simp only [gt_iff_lt, Nat.lt_irrefl, if_false]
      constructor
      · intro _ c2 hc2
        cases hc2
        exact heq
      · intro _
        trivial
    · rw [h2.1, if_neg heq]
      simp only [gt_iff_lt, Nat.zero_lt_one, if_true]
      constructor
      · intro habs
        rw [show ChatService.get_conversation conversation_id user_id
            (updateOne (convMatch conversation_id user_id) (applySet u now)
              store).1 = some (applySet u now c) from h2.2] at habs
        cases habs
      · intro hall
        exact absurd (hall c rfl) heq

/-- Witness for C9 (amended): at equal timestamps and an identical title the
applied update is a genuine no-op and `update_conversation` does return the
not-found result. -/
theorem C9_witness :
    (ChatService.update_conversation "conv-1" "u1" { title := some "新对话" }
        5 [sampleConv]).2 = none := by
  apply (C9_update_modified_count "conv-1" "u1"
    { title := some "新对话" } 5 [sampleConv] (by decide)).mpr
  intro c hc
  have hs : ChatService.get_conversation "conv-1" "u1" [sampleConv] =
      some sampleConv := by decide
  rw [hs] at hc
  cases hc
  decide

/-- Counterexample to claim C4 as stated: for model
`"Claude-3-5-Sonnet-20241022"` (capital C) with no stored provider, the code
falls back to the OpenAI env configuration and routes to the
OpenAI-compatible backend — the router tests the case-sensitive prefix
`model.startswith("claude-")` and only the substring `"anthropic"` on
provider name and base URL — while the spec's case-insensitive-substring
rule ("anthropic" or "claude-" in any of the three strings) selects
Anthropic. -/
theorem C4_counterexample :
    (is_anthropic
        (_resolve_provider sampleEnvNoKeys none none false
          "Claude-3-5-Sonnet-20241022").provider_name
        (_resolve_provider sampleEnvNoKeys none none false
          "Claude-3-5-Sonnet-20241022").base_url
        "Claude-3-5-Sonnet-20241022" = false) ∧
    routesAnthropicSpec
        (_resolve_provider sampleEnvNoKeys none none false
          "Claude-3-5-Sonnet-20241022").provider_name
        (_resolve_provider sampleEnvNoKeys none none false
          "Claude-3-5-Sonnet-20241022").base_url
        "Claude-3-5-Sonnet-20241022" = true := by decide

/-- Claim C4 (amended): `stream_chat` routes to the Anthropic backend iff
`"anthropic"` occurs case-insensitively in the resolved provider name or
base URL, or the requested model starts with the exact (case-sensitive)
prefix `"claude-"`; and for any model with that prefix and no matching
stored provider, resolution selects the Anthropic environment configuration
and the Anthropic code path purely from the model name. -/
theorem C4_routing (provider_name base_url model : String) (env : Env)
    (db_raises : Bool) (messages : List ChatMsg)
    (httpOutcome : HttpStreamOutcome) (anthropicOutcome : AnthropicOutcome) :
    (is_anthropic provider_name base_url model =
      (pyIn "anthropic" (pyLower provider_name) ||
        pyIn "anthropic" (pyLower base_url) ||
        pyStartsWith model "claude-")) ∧
    (pyStartsWith model "claude-" = true →
      _resolve_provider env none none db_raises model =
        { api_key := env.ANTHROPIC_API_KEY, base_url := anthropic_base_url,
          provider_name := "Anthropic (env)", model := model } ∧
      stream_chat env none none db_raises messages model httpOutcome
          anthropicOutcome =
        _stream_anthropic env messages env.ANTHROPIC_API_KEY
          anthropicOutcome) := by
  constructor
  · rfl
  · intro h
    have hres : _resolve_provider env none none db_raises model =
        { api_key := env.ANTHROPIC_API_KEY, base_url := anthropic_base_url,
          provider_name := "Anthropic (env)", model := model } := by
      cases db_raises <;> simp [_resolve_provider, h]
    refine ⟨hres, ?_⟩
    have h1 : pyIn "anthropic" (pyLower "Anthropic (env)") = true := by decide
    have hcond : is_anthropic "Anthropic (env)" anthropic_base_url model =
        true := by
      simp [is_anthropic, h1]
    simp only [stream_chat, hres, hcond, if_true]

/-- Witness for C4 (amended): a lowercase `claude-` model with no stored
provider takes the Anthropic path. -/
theorem C4_witness :
    stream_chat sampleEnvNoKeys none none false
        [{ role := "user", content := "hi" }] "claude-3-5-sonnet-20241022"
        (HttpStreamOutcome.connectError "boom")
        (AnthropicOutcome.streamed ["ok"] none) =
      _stream_anthropic sampleEnvNoKeys [{ role := "user", content := "hi" }]
        sampleEnvNoKeys.ANTHROPIC_API_KEY
        (AnthropicOutcome.streamed ["ok"] none) :=
  ((C4_routing "" "" "claude-3-5-sonnet-20241022" sampleEnvNoKeys false
      [{ role := "user", content := "hi" }]
      (HttpStreamOutcome.connectError "boom")
      (AnthropicOutcome.streamed ["ok"] none)).2 (by decide)).2

/-- Helper: with no usable key the OpenAI-compatible path degrades to the
mock stream before any network interaction. -/
theorem stream_openai_mock (env : Env) (m : List ChatMsg) (k u : String)
    (o : HttpStreamOutcome) (h : no_usable_key env k = true) :
    _stream_openai env m k u o = _mock_stream m := by
  simp only [no_usable_key] at h
  simp only [_stream_openai, h, if_true]

/-- Helper: concatenating a character-by-character yield reassembles the
string. -/
theorem sjoin_chars (l : List Char) :
    sjoin (l.map Char.toString) = ⟨l⟩ := by
  induction l with
  | nil => rfl
  | cons c rest ih =>
    simp only [List.map_cons, sjoin, ih]
    exact String.ext (by simp [Char.toString, String.singleton])

/-- Claim C5: in Mock Mode (no usable API key on the OpenAI-compatible
path), the streamed output is a deterministic function of the final
message's content alone — two runs with equal final content produce
identical output regardless of the environment, the earlier messages, the
base URL, or the (never-consulted) network — and the output is the fixed
canned template yielded one character per fragment. -/
theorem C5_mock_determinism
    (env1 env2 : Env) (m1 m2 : List ChatMsg) (k1 k2 u1 u2 : String)
    (o1 o2 : HttpStreamOutcome)
    (hk1 : no_usable_key env1 k1 = true) (hk2 : no_usable_key env2 k2 = true)
    (hm1 : m1 ≠ []) (hm2 : m2 ≠ [])
    (hlast : (m1.getLastD { role := "", content := "" }).content =
      (m2.getLastD { role := "", content := "" }).content) :
    _stream_openai env1 m1 k1 u1 o1 = _stream_openai env2 m2 k2 u2 o2 ∧
    (∀ f ∈ _stream_openai env1 m1 k1 u1 o1, f.length = 1) ∧
    sjoin (_stream_openai env1 m1 k1 u1 o1) =
      mock_response "Mock LLM"
        (m1.getLastD { role := "", content := "" }).content := by
  have e1 := stream_openai_mock env1 m1 k1 u1 o1 hk1
  have e2 := stream_openai_mock env2 m2 k2 u2 o2 hk2
  refine ⟨?_, ?_, ?_⟩
  · rw [e1, e2]
    simp only [_mock_stream, hlast]
  · rw [e1]
    intro f hf
    simp only [_mock_stream] at hf
    rcases List.mem_map.mp hf with ⟨c, _, rfl⟩
    rfl
  · rw [e1]
    simp only [_mock_stream, sjoin_chars]

/-- Witness for C5: two runs differing in everything except the final
message content produce the same character-by-character canned output. -/
theorem C5_witness :
    (_stream_openai sampleEnvNoKeys [{ role := "user", content := "你好" }]
        "" "" (HttpStreamOutcome.connectError "x") =
      _stream_openai { OPENAI_API_KEY := "mock", ANTHROPIC_API_KEY := "k" }
        [{ role := "system", content := "s" },
         { role := "user", content := "你好" }]
        "" "http://other" (HttpStreamOutcome.response 500 "err" [] none)) ∧
    (∀ f ∈ _stream_openai sampleEnvNoKeys
        [{ role := "user", content := "你好" }] "" ""
        (HttpStreamOutcome.connectError "x"), f.length = 1) ∧
    sjoin (_stream_openai sampleEnvNoKeys
        [{ role := "user", content := "你好" }] "" ""
        (HttpStreamOutcome.connectError "x")) =
      mock_response "Mock LLM"
        (([{ role := "user", content := "你好" }] :
          List ChatMsg).getLastD { role := "", content := "" }).content :=
  C5_mock_determinism sampleEnvNoKeys
    { OPENAI_API_KEY := "mock", ANTHROPIC_API_KEY := "k" }
    [{ role := "user", content := "你好" }]
    [{ role := "system", content := "s" },
     { role := "user", content := "你好" }]
    "" "" "" "http://other"
    (HttpStreamOutcome.connectError "x")
    (HttpStreamOutcome.response 500 "err" [] none)
    (by decide) (by decide) (by decide) (by decide) (by decide)

/-- Helper: Python slicing `s[:n]` returns at most `n` code points. -/
theorem pyTake_length_le (s : String) (n : Nat) : (pyTake s n).length ≤ n := by
  show (s.data.take n).length ≤ n
  rw [List.length_take]
  exact Nat.min_le_left _ _

set_option maxRecDepth 8000 in
set_option maxHeartbeats 1000000 in
/-- Counterexample to claim C6 as stated: the `generate-title` endpoint, run
offline in Mock Mode on a concrete first-turn exchange, produces a title
longer than 30 characters (it truncates the cleaned LLM text to 30 code
points and then appends `"..."`, giving 33). -/
theorem C6_counterexample :
    30 < (generate_conversation_title_run sampleEnvNoKeys none none false
      "益生菌与肠道健康有什么关系？" "益生菌有助于维持肠道菌群平衡。"
      (HttpStreamOutcome.connectError "")
      (AnthropicOutcome.streamed [] none)).length := by decide

/-- Claim C6 (amended): titles from the orchestrator's automatic first-turn
title generation (`_generate_title`) are at most 30 characters, but the
explicit `generate-title` endpoint caps the cleaned text at 33 characters
(30 plus the appended `"..."`), not 30. -/
theorem C6_title_length :
    (∀ user_message ai_response llm_raw,
      (_generate_title user_message ai_response llm_raw).length ≤ 30) ∧
    (∀ raw, (generate_title_endpoint_clean raw).length ≤ 33) := by
  have hfb : ∀ u : String, (title_fallback u).length ≤ 23 := by
    intro u
    unfold title_fallback
    by_cases h : u.length > 20
    · rw [if_pos h, String.length_append]
      have h1 : (pyTake u 20).length ≤ 20 := pyTake_length_le u 20
      have h3 : ("..." : String).length = 3 := rfl
      omega
    · rw [if_neg h]
      omega
  constructor
  · intro user_message ai_response llm_raw
    cases llm_raw with
    | none =>
      show (title_fallback user_message).length ≤ 30
      have := hfb user_message
      omega
    | some raw =>
      show (if title_cleaned raw ≠ "" then pyTake (title_cleaned raw) 30
        else title_fallback user_message).length ≤ 30
      by_cases ht : title_cleaned raw ≠ ""
      · rw [if_pos ht]
        exact pyTake_length_le _ 30
      · rw [if_neg ht]
        have := hfb user_message
        omega
  · intro raw
    show (if (endpoint_cleaned raw).length > 30 then
        pyTake (endpoint_cleaned raw) 30 ++ "..."
      else endpoint_cleaned raw).length ≤ 33
    by_cases h : (endpoint_cleaned raw).length > 30
    · rw [if_pos h, String.length_append]
      have h1 := pyTake_length_le (endpoint_cleaned raw) 30
      have h3 : ("..." : String).length = 3 := rfl
      omega
    · rw [if_neg h]
      omega

/-- Helper: appending a single terminal fragment to the accumulator. -/
theorem sjoin_concat (l : List String) (x : String) :
    sjoin (l ++ [x]) = sjoin l ++ x := by
  rw [sjoin_append]
  simp [sjoin]

/-- Helper: reading back the conversation after a successful
`ChatService.add_message`. -/
theorem add_message_found (conversation_id user_id : String) (m : Message)
    (now : Nat) (store : Store) (c : Conversation)
    (hc : ChatService.get_conversation conversation_id user_id store =
      some c) :
    ChatService.get_conversation conversation_id user_id
        (ChatService.add_message conversation_id user_id m now store).1 =
      some { c with messages := c.messages ++ [m],
                    message_count := c.message_count + 1,
                    updated_at := now } := by
  have hfc : convMatch conversation_id user_id
      { c with messages := c.messages ++ [m],
               message_count := c.message_count + 1,
               updated_at := now } = true := by
    simpa [convMatch] using findOne_pred _ _ _ hc
  have h2 := updateOne_of_findOne_some (convMatch conversation_id user_id)
    (fun x => { x with messages := x.messages ++ [m],
                       message_count := x.message_count + 1,
                       updated_at := now }) store c hc hfc
  simpa only [ChatService.add_message, ChatService.get_conversation]
    using h2.2

/-- Helper: reading back the conversation after
`ChatService.update_conversation` with a non-empty patch: the store ends up
holding the patched document whether or not the update was a no-op. -/
theorem update_conversation_store_found (conversation_id user_id : String)
    (u : ConversationUpdate) (now : Nat) (store : Store) (c : Conversation)
    (hc : ChatService.get_conversation conversation_id user_id store = some c)
    (hne : u.isUnset = false) :
    ChatService.get_conversation conversation_id user_id
        (ChatService.update_conversation conversation_id user_id u now
          store).1 =
      some (applySet u now c) := by
  have hfc : convMatch conversation_id user_id (applySet u now c) = true := by
    simpa [convMatch, applySet] using findOne_pred _ _ _ hc
  have h2 := updateOne_of_findOne_some (convMatch conversation_id user_id)
    (applySet u now) store c hc hfc
  have hstore : (ChatService.update_conversation conversation_id user_id u
      now store).1 =
      (updateOne (convMatch conversation_id user_id) (applySet u now)
        store).1 := by
    simp only [ChatService.update_conversation, hne, Bool.false_eq_true,
      if_false]
    split <;> rfl
  rw [hstore]
  exact h2.2

/-- Helper: the last element after appending two elements. -/
theorem getLast?_append_pair {α : Type} (l : List α) (a b : α) :
    (l ++ [a, b]).getLast? = some b := by
  rw [show l ++ [a, b] = (l ++ [a]) ++ [b] by simp]
  exact List.getLast?_concat _

/-- Helper: a turn whose persistence succeeds always ends its event stream
with the `[DONE]` sentinel and stores the accumulated text as the last
message of the conversation. -/
theorem event_generator_ok (conversation_id user_id req_message : String)
    (is_new_conversation : Bool) (frags : List String)
    (oe : OrchestratorEnv) (store : Store) (c : Conversation)
    (hpersist : oe.persist_error = none)
    (hconv : ChatService.get_conversation conversation_id user_id store =
      some c) :
    (event_generator conversation_id user_id req_message is_new_conversation
        frags oe store).1.getLast? = some SseEvent.done ∧
    ∃ c2,
      ChatService.get_conversation conversation_id user_id
          (event_generator conversation_id user_id req_message
            is_new_conversation frags oe store).2 = some c2 ∧
      c2.messages = c.messages ++
        [{ id := oe.ai_msg_id, role := "assistant",
           content := sjoin frags }] := by
  have hadd := add_message_found conversation_id user_id
    { id := oe.ai_msg_id, role := "assistant", content := sjoin frags }
    oe.now store c hconv
  simp only [event_generator, hpersist]
  split
  · split
    · constructor
      · exact List.getLast?_concat _
      · exact ⟨_, hadd, rfl⟩
    · constructor
      · exact getLast?_append_pair _ _ _
      · refine ⟨_, update_conversation_store_found conversation_id user_id
          { title := some (_generate_title req_message (sjoin frags)
              oe.title_llm_raw) } oe.title_now _ _ hadd rfl, rfl⟩
  · constructor
    · exact List.getLast?_concat _
    · exact ⟨_, hadd, rfl⟩

/-- Helper: both consumers of the event sequence extract the same text. -/
theorem sjoin_drain (events : List SseEvent) :
    sjoin (events.map drain_chunk) = sjoin (tokenContents events) := by
  induction events with
  | nil => rfl
  | cons e rest ih =>
    cases e <;>
      simp [drain_chunk, tokenContents, sjoin, List.filterMap_cons, ih]

/-- Claim C8: the non-streaming branch of `chat_completions` returns the
conversation id paired with the concatenation of the `content` fields of the
token events produced by the very same `event_generator` a streaming caller
would consume — it drains the identical state machine rather than running a
separate generation path. -/
theorem C8_nonstream_refinement (conversation_id user_id req_message : String)
    (is_new_conversation : Bool) (frags : List String)
    (oe : OrchestratorEnv) (store : Store) :
    chat_completions_nonstream conversation_id user_id req_message
        is_new_conversation frags oe store =
      (conversation_id,
        sjoin (tokenContents (event_generator conversation_id user_id
          req_message is_new_conversation frags oe store).1)) := by
  simp only [chat_completions_nonstream, sjoin_drain]

/-- Counterexample to claim C7 as stated: with the fragment stream completed
successfully, a persistence failure changes the client-visible event stream
— the client receives an error event (and no `[DONE]`), so the failure is
surfaced rather than hidden. -/
theorem C7_counterexample :
    ((event_generator "conv-1" "u1" "你好" false ["Hello"] sampleOeFail
        [sampleConv]).1 ≠
      (event_generator "conv-1" "u1" "你好" false ["Hello"] sampleOeOk
        [sampleConv]).1) ∧
    SseEvent.errorEvent "db connection lost" ∈
      (event_generator "conv-1" "u1" "你好" false ["Hello"] sampleOeFail
        [sampleConv]).1 := by decide

/-- Claim C7 (amended): if persisting the assistant message raises after the
fragment stream has completed, the failure is logged and *surfaced to the
client*: the stream emits the token events followed by a single error event,
omits the `[DONE]` sentinel, and nothing is persisted for the assistant turn
(the store is unchanged). -/
theorem C7_persist_failure_surfaced
    (conversation_id user_id req_message : String)
    (is_new_conversation : Bool) (frags : List String)
    (oe : OrchestratorEnv) (store : Store) (e : String)
    (he : oe.persist_error = some e) :
    (event_generator conversation_id user_id req_message is_new_conversation
        frags oe store).1 =
      frags.map (fun chunk => SseEvent.token chunk conversation_id) ++
        [SseEvent.errorEvent e] ∧
    SseEvent.done ∉ (event_generator conversation_id user_id req_message
        is_new_conversation frags oe store).1 ∧
    (event_generator conversation_id user_id req_message is_new_conversation
        frags oe store).2 = store := by
  have hgen : event_generator conversation_id user_id req_message
      is_new_conversation frags oe store =
      (frags.map (fun chunk => SseEvent.token chunk conversation_id) ++
        [SseEvent.errorEvent e], store) := by
    simp only [event_generator, he]
  rw [hgen]
  refine ⟨rfl, ?_, rfl⟩
  intro hmem
  rcases List.mem_append.mp hmem with h | h
  · rcases List.mem_map.mp h with ⟨ch, _, hch⟩
    cases hch
  · rcases List.mem_singleton.mp h with h2
    cases h2

/-- Witness for C7 (amended): a concrete turn whose persistence raises. -/
theorem C7_witness :
    (event_generator "conv-1" "u1" "你好" false ["Hello"] sampleOeFail
        [sampleConv]).1 =
      (["Hello"].map (fun chunk => SseEvent.token chunk "conv-1")) ++
        [SseEvent.errorEvent "db connection lost"] ∧
    SseEvent.done ∉ (event_generator "conv-1" "u1" "你好" false ["Hello"]
        sampleOeFail [sampleConv]).1 ∧
    (event_generator "conv-1" "u1" "你好" false ["Hello"] sampleOeFail
        [sampleConv]).2 = [sampleConv] :=
  C7_persist_failure_surfaced "conv-1" "u1" "你好" false ["Hello"]
    sampleOeFail [sampleConv] "db connection lost" rfl

/-- Helper: with a usable key the OpenAI-compatible path performs the
network call. -/
theorem stream_openai_live (env : Env) (m : List ChatMsg) (k u : String)
    (o : HttpStreamOutcome) (h : no_usable_key env k = false) :
    _stream_openai env m k u o =
      match o with
      | .connectError err => ["Error: Request failed - " ++ err]
      | .response status body lines interrupt =>
        if status ≠ 200 then ["Error: " ++ toString status ++ " - " ++ body]
        else
          processLines lines ++
            (match interrupt with
             | some err => ["Error: Request failed - " ++ err]
             | none => []) := by
  simp only [no_usable_key] at h
  simp only [_stream_openai, h, Bool.false_eq_true, if_false]

/-- Helper: the OpenAI-compatible path on a transport error before any
response. -/
theorem stream_openai_connectError (env : Env) (m : List ChatMsg)
    (k u err : String) (h : no_usable_key env k = false) :
    _stream_openai env m k u (.connectError err) =
      ["Error: Request failed - " ++ err] := by
  rw [stream_openai_live env m k u _ h]

/-- Helper: the OpenAI-compatible path on a delivered response. -/
theorem stream_openai_response (env : Env) (m : List ChatMsg)
    (k u : String) (status : Nat) (body : String) (lines : List SseLine)
    (interrupt : Option String) (h : no_usable_key env k = false) :
    _stream_openai env m k u (.response status body lines interrupt) =
      if status ≠ 200 then ["Error: " ++ toString status ++ " - " ++ body]
      else
        processLines lines ++
          (match interrupt with
           | some err => ["Error: Request failed - " ++ err]
           | none => []) := by
  rw [stream_openai_live env m k u _ h]

/-- Helper: splitting the transport-error fragment at the `Error: ` tag. -/
theorem err_req_split (err : String) :
    "Error: Request failed - " ++ err =
      "Error: " ++ ("Request failed - " ++ err) := by
  apply String.ext
  simp only [String.data_append]
  rw [← List.append_assoc]
  congr 1

/-- Helper: splitting the non-200 fragment at the `Error: ` tag. -/
theorem err_status_split (ts body : String) :
    "Error: " ++ ts ++ " - " ++ body = "Error: " ++ (ts ++ " - " ++ body) := by
  apply String.ext
  simp [String.data_append]

/-- Claim C1: for a chat turn whose provider call on the OpenAI-compatible
path fails (transport raise before or during streaming, or a non-200
response), no exception crosses the stream boundary: the fragment stream is
the normally-delivered fragments followed by one terminal
`Error: <details>` fragment, the orchestrator's SSE event sequence still
ends with the `[DONE]` sentinel, and — persistence succeeding — the
assistant message stored for the turn is exactly the accumulated text, whose
tail is the error text (the stored message is never absent). -/
theorem C1_stream_error_contained
    (env : Env) (messages : List ChatMsg) (api_key base_url : String)
    (outcome : HttpStreamOutcome)
    (conversation_id user_id req_message : String)
    (is_new_conversation : Bool) (oe : OrchestratorEnv) (store : Store)
    (c : Conversation)
    (hkey : no_usable_key env api_key = false)
    (hfail : outcome.isFailure = true)
    (hpersist : oe.persist_error = none)
    (hconv : ChatService.get_conversation conversation_id user_id store =
      some c) :
    ∃ normal details,
      _stream_openai env messages api_key base_url outcome =
        normal ++ ["Error: " ++ details] ∧
      (event_generator conversation_id user_id req_message
          is_new_conversation
          (_stream_openai env messages api_key base_url outcome) oe
          store).1.getLast? = some SseEvent.done ∧
      ∃ c2,
        ChatService.get_conversation conversation_id user_id
            (event_generator conversation_id user_id req_message
              is_new_conversation
              (_stream_openai env messages api_key base_url outcome) oe
              store).2 = some c2 ∧
        c2.messages.getLast? = some
          { id := oe.ai_msg_id, role := "assistant",
            content := sjoin normal ++ ("Error: " ++ details) } := by
  have hshape : ∃ normal details,
      _stream_openai env messages api_key base_url outcome =
        normal ++ ["Error: " ++ details] := by
    cases outcome with
    | connectError err =>
      refine ⟨[], "Request failed - " ++ err, ?_⟩
      rw [stream_openai_connectError env messages api_key base_url err hkey,
        List.nil_append, err_req_split]
    | response status body lines interrupt =>
      by_cases hs : status = 200
      · have hint : interrupt.isSome = true := by
          simp only [HttpStreamOutcome.isFailure, hs] at hfail
          simpa using hfail
        obtain ⟨err, hie⟩ := Option.isSome_iff_exists.mp hint
        refine ⟨processLines lines, "Request failed - " ++ err, ?_⟩
        rw [stream_openai_response env messages api_key base_url status body
          lines interrupt hkey, if_neg (by omega : ¬status ≠ 200), hie]
        show processLines lines ++ ["Error: Request failed - " ++ err] =
          processLines lines ++ ["Error: " ++ ("Request failed - " ++ err)]
        rw [err_req_split]
      · refine ⟨[], toString status ++ " - " ++ body, ?_⟩
        rw [stream_openai_response env messages api_key base_url status body
          lines interrupt hkey, if_pos hs, List.nil_append, err_status_split]
  obtain ⟨normal, details, hfr⟩ := hshape
  have hok := event_generator_ok conversation_id user_id req_message
    is_new_conversation (normal ++ ["Error: " ++ details]) oe store c
    hpersist hconv
  refine ⟨normal, details, hfr, ?_, ?_⟩
  · rw [hfr]
    exact hok.1
  · obtain ⟨c2, hc2, hm⟩ := hok.2
    refine ⟨c2, by rw [hfr]; exact hc2, ?_⟩
    rw [hm, sjoin_concat]
    exact List.getLast?_concat _

/-- Witness for C1: a simulated HTTP 500 turn against a stored conversation,
with a usable key and working persistence. -/
theorem C1_witness :
    ∃ normal details,
      _stream_openai sampleEnvLive
          [{ role := "user", content := "你好" }] "" ""
          (HttpStreamOutcome.response 500 "Internal Server Error" [] none) =
        normal ++ ["Error: " ++ details] ∧
      (event_generator "conv-1" "u1" "你好" false
          (_stream_openai sampleEnvLive
            [{ role := "user", content := "你好" }] "" ""
            (HttpStreamOutcome.response 500 "Internal Server Error" [] none))
          sampleOeOk [sampleConv]).1.getLast? = some SseEvent.done ∧
      ∃ c2,
        ChatService.get_conversation "conv-1" "u1"
            (event_generator "conv-1" "u1" "你好" false
              (_stream_openai sampleEnvLive
                [{ role := "user", content := "你好" }] "" ""
                (HttpStreamOutcome.response 500 "Internal Server Error" []
                  none))
              sampleOeOk [sampleConv]).2 = some c2 ∧
        c2.messages.getLast? = some
          { id := sampleOeOk.ai_msg_id, role := "assistant",
            content := sjoin normal ++ ("Error: " ++ details) } :=
  C1_stream_error_contained
    sampleEnvLive
    [{ role := "user", content := "你好" }] "" ""
    (HttpStreamOutcome.response 500 "Internal Server Error" [] none)
    "conv-1" "u1" "你好" false sampleOeOk [sampleConv] sampleConv
    (by decide) (by decide) rfl (by decide)

end BioAgent
